import Mathlib

/-!
Verification of the content pipeline of the `ai-daily-news-bot` repository:
deduplication (`app/processors/deduplicator.py`), rule-based pre-filtering
(`app/processors/rule_filter.py`), LLM response parsing (`app/llm/prompts.py`),
the processing run (`scripts/run_processor.py`) and report generation
(`scripts/run_generator.py`).

The Python code is shallowly embedded: pure functions become Lean functions,
the in-place mutation of the `Deduplicator` instance becomes explicit state
passing, database reads/writes become explicit lists, and fallible code
returns `Except`.  `json.loads` (the only part whose input/output behaviour
is not re-implemented) is modelled by an `Option Json` argument standing for
its outcome: `none` is a `json.JSONDecodeError`, `some j` the parsed document.
-/

/-! ## Deduplicator (`app/processors/deduplicator.py`) -/

/-- Python `\w` on the ASCII range: letters, digits and underscore. -/
def isWordChar (c : Char) : Bool :=
  c.isAlphanum || c = '_'

/-- Value part `[^&]*` of a tracking parameter: drop characters up to (and
excluding) the next `&` or the end of the string. -/
def dropParamValue : List Char → List Char
  | [] => []
  | c :: cs => if c = '&' then c :: cs else dropParamValue cs

/-- Given the characters following a `?` or `&`, try to match the regex
alternation `(utm_\w+|ref|source|campaign)=` (deduplicator.py line 58) and
return the characters following the `=` on success. -/
def matchTrackingName (cs : List Char) : Option (List Char) :=
  if cs.take 4 = "utm_".toList then
    let rest := cs.drop 4
    let w := rest.takeWhile isWordChar
    let rest2 := rest.dropWhile isWordChar
    if w.isEmpty then none
    else match rest2 with
      | '=' :: r => some r
      | _ => none
  else if cs.take 4 = "ref=".toList then some (cs.drop 4)
  else if cs.take 7 = "source=".toList then some (cs.drop 7)
  else if cs.take 9 = "campaign=".toList then some (cs.drop 9)
  else none

/-- Left-to-right scan of `re.sub(r'[?&](utm_\w+|ref|source|campaign)=[^&]*', '', url)`
(deduplicator.py line 58), removing every tracking parameter together with
its introducing `?`/`&` and its value.  The scan consumes at least one
character per step (on a match, the `?`/`&`, the parameter name and the `=`
are all consumed), so the fuel in `removeTracking` never runs out. -/
def removeTrackingGo : Nat → List Char → List Char
  | 0, cs => cs
  | _ + 1, [] => []
  | fuel + 1, c :: cs =>
    if c = '?' ∨ c = '&' then
      match matchTrackingName cs with
      | some rest => removeTrackingGo fuel (dropParamValue rest)
      | none => c :: removeTrackingGo fuel cs
    else c :: removeTrackingGo fuel cs

/-- `re.sub(r'[?&](utm_\w+|ref|source|campaign)=[^&]*', '', url)`
(deduplicator.py line 58). -/
def removeTracking (cs : List Char) : List Char :=
  removeTrackingGo cs.length cs

/-- `url.rstrip('/')`. -/
def rstripSlashes (cs : List Char) : List Char :=
  ((cs.reverse).dropWhile (fun c => c = '/')).reverse

/-- Drop a leading `http://` or `https://` (`re.sub(r'^https?://', '', _)`,
deduplicator.py line 52). -/
def dropScheme (cs : List Char) : List Char :=
  if cs.take 8 = "https://".toList then cs.drop 8
  else if cs.take 7 = "http://".toList then cs.drop 7
  else cs

/-- Drop a leading `www.` (`re.sub(r'^www\.', '', _)`, deduplicator.py line 54). -/
def dropWww (cs : List Char) : List Char :=
  if cs.take 4 = "www.".toList then cs.drop 4 else cs

/-- Drop a single trailing `?` (`re.sub(r'\?$', '', _)`, deduplicator.py line 59). -/
def dropTrailingQuestion (cs : List Char) : List Char :=
  match cs.reverse with
  | '?' :: rest => rest.reverse
  | _ => cs

/-- `Deduplicator._normalize_url` (deduplicator.py lines 39-61): lowercase,
strip scheme, strip leading `www.`, strip trailing slashes, strip tracking
query parameters, drop a now-empty `?`.  Lowercasing is modelled on the ASCII
range via `Char.toLower`. -/
def normalizeUrl (url : String) : String :=
  if url = "" then ""
  else
    let cs := url.toList.map Char.toLower
    let cs := dropScheme cs
    let cs := dropWww cs
    let cs := rstripSlashes cs
    let cs := removeTracking cs
    let cs := dropTrailingQuestion cs
    cs.asString

/-- `' '.join(title.split())` (deduplicator.py line 78): collapse all
whitespace runs to single spaces and drop leading/trailing whitespace. -/
def collapseWhitespace (s : String) : String :=
  String.intercalate " " ((s.split Char.isWhitespace).filter (fun w => w ≠ ""))

/-- One alternative of the anchored regex
`^(breaking:?\s*|just in:?\s*|update:?\s*)` (deduplicator.py line 80):
if the string begins with `kw`, drop it, an optional following `:` and any
following whitespace. -/
def tryBoilerplateKw (kw : String) (cs : List Char) : Option (List Char) :=
  if cs.take kw.length = kw.toList then
    let r := cs.drop kw.length
    let r := match r with
      | ':' :: t => t
      | _ => r
    some (r.dropWhile Char.isWhitespace)
  else none

/-- The full anchored substitution of deduplicator.py line 80: a single
replacement at the start of the string, trying the alternatives in order. -/
def dropBoilerplate (cs : List Char) : List Char :=
  match tryBoilerplateKw "breaking" cs with
  | some r => r
  | none =>
    match tryBoilerplateKw "just in" cs with
    | some r => r
    | none =>
      match tryBoilerplateKw "update" cs with
      | some r => r
      | none => cs

/-- `re.sub(r'\s*-\s*[^-]+$', '', title)` (deduplicator.py line 81): remove a
trailing `- Source` part.  Since `[^-]+` cannot contain `-`, the matched dash
is necessarily the last one of the string, and the match requires at least
one character after it; the whitespace run immediately before that dash is
consumed as well. -/
def dropSourceSuffix (cs : List Char) : List Char :=
  let r := cs.reverse
  let afterDash := r.takeWhile (fun c => c ≠ '-')
  if afterDash.length = r.length then cs
  else if afterDash.isEmpty then cs
  else (((r.dropWhile (fun c => c ≠ '-')).drop 1).dropWhile Char.isWhitespace).reverse

/-- `Deduplicator._normalize_title` (deduplicator.py lines 63-83): lowercase,
collapse whitespace, strip boilerplate prefixes, strip a trailing
`- Source` suffix. -/
def normalizeTitle (title : String) : String :=
  if title = "" then ""
  else
    let s := String.mk (title.toList.map Char.toLower)
    let s := collapseWhitespace s
    let cs := dropBoilerplate s.toList
    (dropSourceSuffix cs).asString

/-- `CollectedItem` (`app/collectors/base.py`), restricted to the fields the
deduplicator reads.  `RawItem` rows passed as the existing corpus expose the
same two fields and are modelled by the same type. -/
structure CollectedItem where
  title : String
  url : Option String
deriving DecidableEq, Repr

/-- Reasons attached to `DeduplicationResult` (deduplicator.py).  The Python
code uses strings; `similarTitle` carries the computed ratio that the Python
string interpolates. -/
inductive DedupReason where
  | urlSeen
  | exactTitle
  | similarTitle (ratio : ℚ)
  | unknown
deriving DecidableEq, Repr

/-- `DeduplicationResult` (deduplicator.py lines 16-21).  The `similar_to`
field only echoes stored original strings and is not modelled. -/
structure DedupResult where
  is_duplicate : Bool
  reason : Option DedupReason
deriving DecidableEq, Repr

/-- The mutable "seen" state of a `Deduplicator` instance.  The Python code
keys `_seen_urls` by the MD5 hex digest of the normalized URL; the digest is
used only as a set key, so it is modelled by the normalized URL itself.
Python `set` iteration order is modelled as insertion order (most recent
first). -/
structure DedupState where
  seenUrls : List String
  seenTitles : List String
deriving DecidableEq, Repr

def DedupState.empty : DedupState := ⟨[], []⟩

/-- Deduplicator configuration (deduplicator.py lines 27-33). -/
structure DedupConfig where
  url_similarity_threshold : ℚ
  title_similarity_threshold : ℚ
deriving DecidableEq, Repr

def DedupConfig.default : DedupConfig := ⟨1, 85/100⟩

/-- `Deduplicator._calculate_similarity` (deduplicator.py lines 97-109).
`difflib.SequenceMatcher(None, a, b).ratio()` is the parameter `sim`;
empty strings short-circuit to `0.0`. -/
def calculateSimilarity (sim : String → String → ℚ) (t1 t2 : String) : ℚ :=
  if t1 = "" ∨ t2 = "" then 0 else sim t1 t2

/-- `Deduplicator.check_url_duplicate` (deduplicator.py lines 111-133). -/
def checkUrlDuplicate (st : DedupState) (url : String) : DedupResult :=
  if url = "" then ⟨false, none⟩
  else if normalizeUrl url ∈ st.seenUrls then ⟨true, some .urlSeen⟩
  else ⟨false, none⟩

/-- `Deduplicator.check_title_duplicate` (deduplicator.py lines 135-167):
exact normalized match first, then a similarity scan over the seen titles. -/
def checkTitleDuplicate (sim : String → String → ℚ) (cfg : DedupConfig)
    (st : DedupState) (title : String) : DedupResult :=
  if title = "" then ⟨false, none⟩
  else
    let normalized := normalizeTitle title
    if normalized ∈ st.seenTitles then ⟨true, some .exactTitle⟩
    else
      match st.seenTitles.find?
          (fun t => decide (cfg.title_similarity_threshold ≤ calculateSimilarity sim normalized t)) with
      | some t => ⟨true, some (.similarTitle (calculateSimilarity sim normalized t))⟩
      | none => ⟨false, none⟩

/-- `Deduplicator.check_duplicate` (deduplicator.py lines 169-185): URL check
first (when the item has a truthy URL), then the title check. -/
def checkDuplicate (sim : String → String → ℚ) (cfg : DedupConfig)
    (st : DedupState) (item : CollectedItem) : DedupResult :=
  let urlStr := item.url.getD ""
  if urlStr ≠ "" then
    let r := checkUrlDuplicate st urlStr
    if r.is_duplicate then r
    else checkTitleDuplicate sim cfg st item.title
  else checkTitleDuplicate sim cfg st item.title

/-- `Deduplicator.add_item` (deduplicator.py lines 187-201). -/
def addItem (st : DedupState) (item : CollectedItem) : DedupState :=
  let urlStr := item.url.getD ""
  let st1 := if urlStr ≠ "" then { st with seenUrls := normalizeUrl urlStr :: st.seenUrls } else st
  let nt := normalizeTitle item.title
  if nt ≠ "" then { st1 with seenTitles := nt :: st1.seenTitles } else st1

/-- `Deduplicator.add_existing_items` (deduplicator.py lines 203-218); the
per-item body is identical to `add_item`. -/
def addExistingItems (st : DedupState) (items : List CollectedItem) : DedupState :=
  items.foldl addItem st

/-- The loop of `Deduplicator.deduplicate` (deduplicator.py lines 243-253):
duplicates are set aside with their reason (`result.reason or "Unknown"`);
accepted items are added to the seen state immediately. -/
def dedupLoop (sim : String → String → ℚ) (cfg : DedupConfig) :
    DedupState → List CollectedItem →
    DedupState × List CollectedItem × List (CollectedItem × DedupReason)
  | st, [] => (st, [], [])
  | st, item :: rest =>
    let res := checkDuplicate sim cfg st item
    if res.is_duplicate then
      let (st2, u, d) := dedupLoop sim cfg st rest
      (st2, u, (item, res.reason.getD .unknown) :: d)
    else
      let (st2, u, d) := dedupLoop sim cfg (addItem st item) rest
      (st2, item :: u, d)

/-- `Deduplicator.deduplicate` (deduplicator.py lines 220-255).  Note lines
234-238: the method first CLEARS every seen structure, then re-seeds it from
`existing_items` alone, so the incoming state `st` never influences the
result. -/
def deduplicate (sim : String → String → ℚ) (cfg : DedupConfig)
    (_st : DedupState) (newItems : List CollectedItem)
    (existingItems : Option (List CollectedItem)) :
    DedupState × List CollectedItem × List (CollectedItem × DedupReason) :=
  let st := DedupState.empty
  let st := match existingItems with
    | some xs => addExistingItems st xs
    | none => st
  dedupLoop sim cfg st newItems

/-- A concrete stand-in similarity function for closed evaluations. -/
def simZero : String → String → ℚ := fun _ _ => 0

/-- Concrete item used by the closed deduplication evaluations. -/
def itemAlpha : CollectedItem :=
  { title := "Alpha benchmark results", url := some "http://example.com/x" }

/-- Second concrete item: same article reached through a differently written
URL (scheme and trailing slash differ, normalized forms agree). -/
def itemBeta : CollectedItem :=
  { title := "A different headline", url := some "https://example.com/x/" }

/-! ## LLM response parsing (`app/llm/prompts.py`) -/

/-- JSON documents, as produced by `json.loads`.  Numbers are modelled as
integers (every number in the scoring/summary contracts is integral);
Python `bool` is a subtype of `int`, which the clamping logic accounts for. -/
inductive Json where
  | null
  | bool (b : Bool)
  | num (n : Int)
  | str (s : String)
  | arr (elems : List Json)
  | obj (fields : List (String × Json))

/-- `dict.get(key)`: first binding wins (`json.loads` keeps the last duplicate
key, so documents are modelled with distinct keys). -/
def jsonLookup (fields : List (String × Json)) (k : String) : Option Json :=
  (fields.find? (fun p => p.1 == k)).map (fun p => p.2)

/-- `min(10, max(1, int(v))) if isinstance(v, (int, float)) else 5`
(prompts.py lines 254-255) applied to `item.get(key, 5)`: a missing key
defaults to `5`; Python `bool` passes the `isinstance` test with
`int(True) = 1`, `int(False) = 0`. -/
def clampScore : Option Json → Int
  | some (.num v) => min 10 (max 1 v)
  | some (.bool b) => min 10 (max 1 (if b then 1 else 0))
  | some _ => 5
  | none => 5

/-- The closed category set of prompts.py lines 262-264. -/
def validCategories : List String :=
  ["ai-ml", "security", "engineering", "tools", "opinion", "other"]

/-- One parsed result entry (prompts.py lines 252-266).  The raw `index`
value is kept as JSON, exactly as Python stores `item.get('index', 0)`.
A non-dict entry raises `AttributeError` when `.get` is called. -/
structure ScoreEntry where
  index : Json
  relevance : Int
  quality : Int
  timeliness : Int
  category : String
  keywords : List Json

def parseScoreItem : Json → Except String ScoreEntry
  | .obj fields =>
    .ok
      { index := (jsonLookup fields "index").getD (.num 0)
      , relevance := clampScore (jsonLookup fields "relevance")
      , quality := clampScore (jsonLookup fields "quality")
      , timeliness := clampScore (jsonLookup fields "timeliness")
      , category :=
          match jsonLookup fields "category" with
          | some (.str s) => if s ∈ validCategories then s else "other"
          | _ => "other"
      , keywords :=
          match jsonLookup fields "keywords" with
          | some (.arr xs) => xs.take 4
          | _ => [] }
  | _ => .error "AttributeError"

/-- The `for item in data.get('results', [])` loop (prompts.py lines 252-266):
entries are accumulated in order and the first bad entry raises. -/
def parseScoreItems : List Json → Except String (List ScoreEntry)
  | [] => .ok []
  | x :: xs =>
    match parseScoreItem x with
    | .error e => .error e
    | .ok y =>
      match parseScoreItems xs with
      | .error e => .error e
      | .ok ys => .ok (y :: ys)

/-- `parse_scoring_response` (prompts.py lines 233-271).  The stripping of a
surrounding code fence and `json.loads` are modelled by the `Option Json`
argument: `none` is a `json.JSONDecodeError`, which the function catches and
turns into an empty result list.  `TypeError`/`AttributeError` raised on
documents of unexpected shape escape the function and are modelled as
`.error` (Python quirk: iterating an empty string or empty dict under
`results` yields an empty loop, hence an empty result list). -/
def parse_scoring_response : Option Json → Except String (List ScoreEntry)
  | none => .ok []
  | some (.obj fields) =>
    match (jsonLookup fields "results").getD (.arr []) with
    | .arr items => parseScoreItems items
    | .str "" => .ok []
    | .obj [] => .ok []
    | _ => .error "TypeError"
  | some _ => .error "AttributeError"

/-- `score_articles` (run_processor.py lines 35-52): any exception from the
LLM call or the parser is caught and converted to an empty result list. -/
def score_articles (resp : Option Json) : List ScoreEntry :=
  match parse_scoring_response resp with
  | .ok rs => rs
  | .error _ => []

/-- The backtick character, U+0060. -/
def backtickChar : Char := Char.ofNat 96

/-- Python `str.strip()`: drop leading and trailing whitespace. -/
def pyStrip (cs : List Char) : List Char :=
  ((cs.dropWhile Char.isWhitespace).reverse.dropWhile Char.isWhitespace).reverse

/-- Python `s[:200]`: the first 200 characters. -/
def pySlice200 (s : String) : String :=
  (s.toList.take 200).asString

/-- Strip `response.strip()` plus the surrounding markdown code fence
(prompts.py lines 282-287): if the stripped text starts with three backticks,
remove them together with an optional `json` tag and an optional newline, and
remove a trailing fence (with its optional preceding newline) if present. -/
def stripFences (s : String) : String :=
  let cs := pyStrip s.toList
  if cs.take 3 = [backtickChar, backtickChar, backtickChar] then
    let t := cs.drop 3
    let t := if t.take 4 = "json".toList then t.drop 4 else t
    let t := match t with
      | '\n' :: r => r
      | _ => t
    let r := t.reverse
    if r.take 4 = [backtickChar, backtickChar, backtickChar, '\n'] then ((r.drop 4).reverse).asString
    else if r.take 3 = [backtickChar, backtickChar, backtickChar] then ((r.drop 3).reverse).asString
    else t.asString
  else cs.asString

/-- The three summary fields.  The values are whatever JSON values the model
returned (`data.get(key, '')` does not coerce to a string). -/
structure SummaryFields where
  title_zh : Json
  summary : Json
  reason : Json

/-- `parse_summary_response` (prompts.py lines 274-301).  `response` is the
raw LLM text; `parsed` models the outcome of `json.loads` on
`stripFences response`.  On a `json.JSONDecodeError` the function returns
`titleZh` and `reason` as empty strings but puts the first 200 characters of
the stripped response text into `summary`.  Valid JSON that is not an object
raises `AttributeError` at `data.get`, which is not caught here. -/
def parse_summary_response (response : String) (parsed : Option Json) :
    Except String SummaryFields :=
  match parsed with
  | some (.obj fields) =>
    .ok
      { title_zh := (jsonLookup fields "titleZh").getD (.str "")
      , summary := (jsonLookup fields "summary").getD (.str "")
      , reason := (jsonLookup fields "reason").getD (.str "") }
  | some _ => .error "AttributeError"
  | none => .ok { title_zh := .str "", summary := .str (pySlice200 (stripFences response)), reason := .str "" }

/-- `summarize_article` (run_processor.py lines 55-74): any exception from
the LLM call or the parser yields three empty strings. -/
def summarize_article (response : String) (parsed : Option Json) : SummaryFields :=
  match parse_summary_response response parsed with
  | .ok r => r
  | .error _ => { title_zh := .str "", summary := .str "", reason := .str "" }

/-! ## Processing run (`scripts/run_processor.py`) -/

/-- A pending `RawItem` row as read by the processor query
(run_processor.py lines 101-112), restricted to the fields the persistence
phase touches. -/
structure RawItemRec where
  id : Nat
  title : String
  status : String
deriving DecidableEq, Repr

/-- Key equality for `all_scores[r['index']]` versus `all_scores.get(i)`
(run_processor.py lines 150-151 and 164): the stored key is the raw JSON
`index` value; Python compares `True == 1` and `False == 0`, so booleans
participate as integers.  Other JSON values never equal an `int` key. -/
def isIndexKey (j : Json) (i : Nat) : Bool :=
  match j with
  | .num m => m == (i : Int)
  | .bool b => (if b then (1 : Int) else 0) == (i : Int)
  | _ => false

/-- Whether a JSON value is hashable as a Python dict key: lists and dicts
are unhashable, so storing a result under such an `index` raises
`TypeError`. -/
def isHashable : Json → Bool
  | .arr _ => false
  | .obj _ => false
  | _ => true

/-- `for r in results: all_scores[r['index']] = r` (run_processor.py lines
150-151): each parsed entry is stored into the `all_scores` dict under its
raw `index` value.  An unhashable key — a JSON array or object — raises an
uncaught `TypeError` there, aborting the whole `run_processor` call before
anything is persisted.  On success the dict contents are the entries
themselves (looked up by `allScoresGet`). -/
def storeScores : List ScoreEntry → Except String (List ScoreEntry)
  | [] => .ok []
  | e :: es =>
    if isHashable e.index then
      match storeScores es with
      | .ok rest => .ok (e :: rest)
      | .error msg => .error msg
    else .error "TypeError"

/-- `all_scores.get(i)` on the successfully built dict (run_processor.py
line 164): the dict was filled batch by batch with
`all_scores[r['index']] = r`, so the last write wins — the last matching
entry of the concatenated batch results is returned. -/
def allScoresGet (results : List ScoreEntry) (i : Nat) : Option ScoreEntry :=
  (results.filter (fun e => isIndexKey e.index i)).getLast?

/-- The per-article score data consumed by the orchestrator. -/
structure ScoreData where
  relevance : Int
  quality : Int
  timeliness : Int
  category : String
  keywords : List Json

/-- The neutral fallback applied when `all_scores` has no entry for an
article (run_processor.py lines 164-167). -/
def fallbackScore : ScoreData :=
  { relevance := 5, quality := 5, timeliness := 5, category := "other", keywords := [] }

def scoreDataOf (results : List ScoreEntry) (i : Nat) : ScoreData :=
  match allScoresGet results i with
  | some e =>
    { relevance := e.relevance, quality := e.quality, timeliness := e.timeliness
    , category := e.category, keywords := e.keywords }
  | none => fallbackScore

/-- One entry of `scored_items` (run_processor.py lines 162-179). -/
structure ScoredItem where
  index : Nat
  item : RawItemRec
  total_score : Int
  relevance : Int
  quality : Int
  timeliness : Int
  category : String
  keywords : List Json

/-- `scored_items` before sorting (run_processor.py lines 162-179): one entry
per pending item, in order, with `total = relevance + quality + timeliness`. -/
def mkScoredItems (pending : List RawItemRec) (results : List ScoreEntry) : List ScoredItem :=
  pending.enum.map (fun p =>
    let d := scoreDataOf results p.1
    { index := p.1, item := p.2
    , total_score := d.relevance + d.quality + d.timeliness
    , relevance := d.relevance, quality := d.quality, timeliness := d.timeliness
    , category := d.category, keywords := d.keywords })

/-- Insert `x` into a sorted list: `x` goes before the first element `y`
with `le x y`, i.e. after every element strictly preceding it under `le`. -/
def insertSorted {a : Type} (le : a → a → Bool) (x : a) : List a → List a
  | [] => [x]
  | y :: ys => if le x y then x :: y :: ys else y :: insertSorted le x ys

/-- Stable insertion sort: for a total preorder `le` this produces the same
list as Python's stable `list.sort` (equal elements keep their original
relative order, since an element is inserted before the equal elements that
originally followed it). -/
def insertionSort {a : Type} (le : a → a → Bool) : List a → List a
  | [] => []
  | x :: xs => insertSorted le x (insertionSort le xs)

/-- `scored_items.sort(key=lambda x: x['total_score'], reverse=True)`
(run_processor.py line 183): stable descending sort by total score. -/
def sortScoredDesc (scored : List ScoredItem) : List ScoredItem :=
  insertionSort (fun a b => decide (b.total_score ≤ a.total_score)) scored

/-- Selection (run_processor.py lines 187-193) together with the complement
iterated by the second persistence loop (lines 235-254): when all articles
fit, everything is selected; otherwise the top `topN` of the sorted list.
The `scored not in top_items` test of line 236 singles out exactly the
dropped suffix, each `scored` dict carrying a distinct `index`. -/
def selectTop (sorted : List ScoredItem) (topN : Nat) : List ScoredItem × List ScoredItem :=
  if sorted.length ≤ topN then (sorted, [])
  else (sorted.take topN, sorted.drop topN)

/-- A `ProcessedItem` row as inserted by the processor
(run_processor.py lines 214-226 and 241-253).  `keywords` is stored via
`json.dumps`, modelled by keeping the JSON list. -/
structure ProcessedItemRec where
  raw_item_id : Nat
  relevance : Int
  quality : Int
  timeliness : Int
  total_score : Int
  category : String
  keywords : List Json
  title_zh : Json
  summary : Json
  reason : Json
  approved : Bool

/-- The approved insert of run_processor.py lines 214-226: summary data from
`summarize_article` (an arbitrary `SummaryFields`, since the LLM response is
arbitrary), `approved=True`. -/
def mkApprovedItem (sf : SummaryFields) (s : ScoredItem) : ProcessedItemRec :=
  { raw_item_id := s.item.id
  , relevance := s.relevance, quality := s.quality, timeliness := s.timeliness
  , total_score := s.total_score, category := s.category, keywords := s.keywords
  , title_zh := sf.title_zh, summary := sf.summary, reason := sf.reason
  , approved := true }

/-- The rejected insert of run_processor.py lines 241-253: empty-string
summary fields, `approved=False`. -/
def mkRejectedItem (s : ScoredItem) : ProcessedItemRec :=
  { raw_item_id := s.item.id
  , relevance := s.relevance, quality := s.quality, timeliness := s.timeliness
  , total_score := s.total_score, category := s.category, keywords := s.keywords
  , title_zh := .str "", summary := .str "", reason := .str ""
  , approved := false }

/-- The persistence phase of `run_processor` (run_processor.py lines 200-256):
given the pending items, the concatenated scoring results of all batches and
the per-article summarizer outcomes (indexed by the article's position in
the pending list), produce the inserted `ProcessedItem` rows and the
`RawItem` status writes, in loop order. -/
def runProcessorPersist (pending : List RawItemRec) (results : List ScoreEntry)
    (summaries : Nat → SummaryFields) (topN : Nat) :
    List ProcessedItemRec × List (Nat × String) :=
  let sorted := sortScoredDesc (mkScoredItems pending results)
  let sel := selectTop sorted topN
  ( sel.1.map (fun s => mkApprovedItem (summaries s.index) s) ++ sel.2.map mkRejectedItem
  , sel.1.map (fun s => (s.item.id, "scored")) ++ sel.2.map (fun s => (s.item.id, "scored")) )

/-- `run_processor` from scoring aggregation to persistence
(run_processor.py lines 146-256): the per-batch results are stored into
`all_scores` keyed by their raw `index` (lines 150-151) — an unhashable
index aborts the whole run with an uncaught `TypeError`, so no
`ProcessedItem` is inserted and no `RawItem` status is written — and on
success the persistence phase runs on the stored results. -/
def runProcessor (pending : List RawItemRec) (results : List ScoreEntry)
    (summaries : Nat → SummaryFields) (topN : Nat) :
    Except String (List ProcessedItemRec × List (Nat × String)) :=
  match storeScores results with
  | .error msg => .error msg
  | .ok stored => .ok (runProcessorPersist pending stored summaries topN)

/-! ## Report generation (`scripts/run_generator.py`) -/

/-- A `ProcessedItem` row joined with its `RawItem`, restricted to the fields
the generator's selection and ordering read.  `recentPub` models the
`RawItem.published_at >= cutoff_time` join condition of line 158. -/
structure GenRow where
  id : Nat
  total_score : Int
  approved : Bool
  recentPub : Bool
  category : String
deriving DecidableEq, Repr

/-- The generator's selection (run_generator.py lines 149-174): approved rows
with `total_score >= min_score` published within the window, ordered by
total score descending, limited to `top_n * 2`, then cut to the top
`top_n`.  An empty selection aborts the run without writing a report
(lines 166-168). -/
def generatorSelect (db : List GenRow) (minScore : Int) (topN : Nat) : List GenRow :=
  ((insertionSort (fun a b => decide (b.total_score ≤ a.total_score))
      (db.filter (fun p => p.approved && p.recentPub && decide (minScore ≤ p.total_score)))).take
    (topN * 2)).take topN

/-- The fixed category display order of run_generator.py line 357. -/
def categoryDisplayOrder : List String :=
  ["ai-ml", "engineering", "tools", "security", "opinion", "other"]

/-- The rendered item order of the report body (run_generator.py lines
272-300 and 348-399): the top 3 of the score-ordered selection first, then
for each category in the fixed display order the selected items of that
category whose score-order position is at least 3, in selection order
(`by_category` preserves list order and `items.index(item)` is the item's
own position, the rows being distinct). -/
def renderedOrder (items : List GenRow) : List GenRow :=
  items.take 3 ++
    (categoryDisplayOrder.map (fun cat =>
      (items.enum.filter (fun p => p.2.category == cat && decide (3 ≤ p.1))).map (fun p => p.2))).flatten

/-- The `ReportItem` inserts of run_generator.py lines 479-485: one
`(processed_item_id, order_index)` pair per included article, enumerating
`items` — the score-ordered selection — directly. -/
def reportItemRows (items : List GenRow) : List (Nat × Nat) :=
  items.enum.map (fun p => (p.2.id, p.1))

/-- A `Report` row (schemas.py lines 131-152, as written by the generator). -/
structure ReportRec where
  report_date : Int
  title : String
  content : String
  highlights : String
  status : String
  version : Int
deriving DecidableEq, Repr

/-- `select(func.max(Report.version)).where(Report.report_date == d)`
(run_generator.py lines 460-462): SQL `MAX` over the matching rows, `NULL`
(here `none`) when no row matches. -/
def maxVersionScalar (db : List ReportRec) (d : Int) : Option Int :=
  ((db.filter (fun r => r.report_date == d)).map (fun r => r.version)).foldl
    (fun acc v =>
      match acc with
      | none => some v
      | some m => some (max m v)) none

/-- The report save of run_generator.py lines 457-476: version is
`(max existing version for the date or 0) + 1`, and the new row is inserted —
no existing row is touched. -/
def saveReport (db : List ReportRec) (d : Int) (title content highlights : String) :
    ReportRec × List ReportRec :=
  let maxV := (maxVersionScalar db d).getD 0
  let r : ReportRec :=
    { report_date := d, title := title, content := content, highlights := highlights
    , status := "draft", version := maxV + 1 }
  (r, db ++ [r])

/-! ## Rule filter construction (`app/processors/rule_filter.py`) -/

/-- The three rule-filter settings defaults (config.py lines 43-45). -/
structure SettingsRec where
  filter_max_age_hours : Int
  filter_title_min_length : Int
  filter_content_min_length : Int
deriving DecidableEq, Repr

def defaultSettings : SettingsRec :=
  { filter_max_age_hours := 48, filter_title_min_length := 10, filter_content_min_length := 50 }

/-- Python `x or default` for an `int | None` argument: both `None` and `0`
are falsy and yield the default. -/
def pyOrInt (x : Option Int) (d : Int) : Int :=
  match x with
  | none => d
  | some v => if v = 0 then d else v

/-- The thresholds stored by `RuleFilter.__init__` (rule_filter.py lines
88-96). -/
structure RuleFilterRec where
  max_age_hours : Int
  title_min_length : Int
  content_min_length : Int
deriving DecidableEq, Repr

def ruleFilterInit (s : SettingsRec)
    (max_age_hours title_min_length content_min_length : Option Int) : RuleFilterRec :=
  { max_age_hours := pyOrInt max_age_hours s.filter_max_age_hours
  , title_min_length := pyOrInt title_min_length s.filter_title_min_length
  , content_min_length := pyOrInt content_min_length s.filter_content_min_length }

/-! ## Concrete inputs used by closed evaluations -/

/-- Five pending articles. -/
def pendingFive : List RawItemRec :=
  [ { id := 101, title := "Post one", status := "pending" }
  , { id := 102, title := "Post two", status := "pending" }
  , { id := 103, title := "Post three", status := "pending" }
  , { id := 104, title := "Post four", status := "pending" }
  , { id := 105, title := "Post five", status := "pending" } ]

/-- Scoring results giving the five articles total scores 10-14 (all inside
[1,10] per dimension). -/
def resultsLow : List ScoreEntry :=
  [ { index := .num 0, relevance := 4, quality := 3, timeliness := 3, category := "ai-ml", keywords := [] }
  , { index := .num 1, relevance := 4, quality := 4, timeliness := 3, category := "tools", keywords := [] }
  , { index := .num 2, relevance := 4, quality := 4, timeliness := 4, category := "ai-ml", keywords := [] }
  , { index := .num 3, relevance := 5, quality := 4, timeliness := 4, category := "other", keywords := [] }
  , { index := .num 4, relevance := 5, quality := 5, timeliness := 4, category := "ai-ml", keywords := [] } ]

/-- A trivial summarizer outcome for closed evaluations. -/
def emptySummaries : Nat → SummaryFields :=
  fun _ => { title_zh := .str "", summary := .str "", reason := .str "" }

/-- The generator's view of a processed row, assuming the underlying article
is within the 24h window. -/
def toGenRow (p : ProcessedItemRec) : GenRow :=
  { id := p.raw_item_id, total_score := p.total_score, approved := p.approved
  , recentPub := true, category := p.category }

/-- Five selected rows in score order whose categories force the rendering
to reorder ranks 4 and 5: rank 4 is `tools`, rank 5 is `ai-ml`, and the
category display order lists `ai-ml` before `tools`. -/
def rowsReorder : List GenRow :=
  [ { id := 0, total_score := 30, approved := true, recentPub := true, category := "ai-ml" }
  , { id := 1, total_score := 29, approved := true, recentPub := true, category := "ai-ml" }
  , { id := 2, total_score := 28, approved := true, recentPub := true, category := "ai-ml" }
  , { id := 3, total_score := 27, approved := true, recentPub := true, category := "tools" }
  , { id := 4, total_score := 26, approved := true, recentPub := true, category := "ai-ml" } ]

/-- Three successive report saves for the same date (the scenario of the
versioning claim), returning the three created rows and the final table. -/
def saveThree (db : List ReportRec) (d : Int) : ReportRec × ReportRec × ReportRec × List ReportRec :=
  let s1 := saveReport db d "Report" "content-1" "hl-1"
  let s2 := saveReport s1.2 d "Report" "content-2" "hl-2"
  let s3 := saveReport s2.2 d "Report" "content-3" "hl-3"
  (s1.1, s2.1, s3.1, s3.2)

/-- A single approved, recent, high-scoring row. -/
def rowOk : GenRow :=
  { id := 1, total_score := 25, approved := true, recentPub := true, category := "ai-ml" }

/-- A scoring response that parses as JSON but whose single entry carries a
JSON array as its `index`. -/
def respBadIndex : Option Json :=
  some (.obj [("results", .arr [.obj [("index", .arr [.num 0])]])])

/-- The entry `parse_scoring_response` produces for `respBadIndex`: every
sub-score defaults to 5, but the raw `index` is the array `[0]`. -/
def entryBadIndex : ScoreEntry :=
  { index := .arr [.num 0], relevance := 5, quality := 5, timeliness := 5
  , category := "other", keywords := [] }

/-- A synthetic scoring response whose sub-scores are out of range or
non-numeric: relevance 0, quality 15, timeliness "abc", index/category/
keywords missing. -/
def respSynthetic : Option Json :=
  some (.obj [("results", .arr
    [.obj [("relevance", .num 0), ("quality", .num 15), ("timeliness", .str "abc")]])])

/-- The entry `parse_scoring_response` produces for `respSynthetic`. -/
def entrySynthetic : ScoreEntry :=
  { index := .num 0, relevance := 1, quality := 10, timeliness := 5
  , category := "other", keywords := [] }

/-- C9 claim as written, evaluated on the two URLs of the spec. -/
theorem c9_url_normalization_equivalence :
    normalizeUrl "http://www.example.com/a?utm_source=x" = normalizeUrl "https://example.com/a/"
    ∧ normalizeUrl "http://www.example.com/a?utm_source=x" = "example.com/a" := by
  constructor <;> rfl

theorem checkUrlDuplicate_empty (url : String) :
    checkUrlDuplicate DedupState.empty url = ⟨false, none⟩ := by
  simp [checkUrlDuplicate, DedupState.empty]

theorem checkTitleDuplicate_empty (sim : String → String → ℚ) (cfg : DedupConfig)
    (title : String) : checkTitleDuplicate sim cfg DedupState.empty title = ⟨false, none⟩ := by
  simp [checkTitleDuplicate, DedupState.empty]

theorem checkDuplicate_empty (sim : String → String → ℚ) (cfg : DedupConfig)
    (item : CollectedItem) : checkDuplicate sim cfg DedupState.empty item = ⟨false, none⟩ := by
  simp [checkDuplicate, checkUrlDuplicate_empty, checkTitleDuplicate_empty]

theorem addItem_seenUrls_of_url (st : DedupState) (item : CollectedItem) (u : String)
    (hu : item.url = some u) (hne : u ≠ "") :
    (addItem st item).seenUrls = normalizeUrl u :: st.seenUrls := by
  simp only [addItem, hu, Option.getD, hne, if_pos, ne_eq, not_false_iff, ite_true]
  split <;> rfl

/-- C8: the claim is refuted on the code — `deduplicate` clears its seen
state on entry (deduplicator.py lines 234-238), so the very same item fed to
two successive `deduplicate` calls on one instance is accepted as unique
both times instead of being flagged as a duplicate of the first call's
accepted item. -/
theorem c8_counterexample :
    (deduplicate simZero DedupConfig.default
        (deduplicate simZero DedupConfig.default DedupState.empty [itemAlpha] none).1
        [itemAlpha] none).2.1 = [itemAlpha]
    ∧ (deduplicate simZero DedupConfig.default
        (deduplicate simZero DedupConfig.default DedupState.empty [itemAlpha] none).1
        [itemAlpha] none).2.2 = [] := by
  constructor <;> rfl

/-- C8 (amended): the deduplicator's memory holds only within one
`deduplicate` call — the call resets the seen state (so its outcome is
independent of any previously accumulated state), while inside one call an
item whose normalized URL matches an earlier-accepted item of the same batch
is classified as a duplicate with reason "URL already seen". -/
theorem c8_amended (sim : String → String → ℚ) (cfg : DedupConfig)
    (st st2 : DedupState) (items : List CollectedItem) (ex : Option (List CollectedItem))
    (a b : CollectedItem) (u v : String)
    (ha : a.url = some u) (hb : b.url = some v) (hu : u ≠ "") (hv : v ≠ "")
    (hnorm : normalizeUrl u = normalizeUrl v) :
    deduplicate sim cfg st items ex = deduplicate sim cfg st2 items ex
    ∧ (deduplicate sim cfg st [a, b] none).2.1 = [a]
    ∧ (deduplicate sim cfg st [a, b] none).2.2 = [(b, DedupReason.urlSeen)] := by
  refine ⟨rfl, ?_⟩
  have hsA : (addItem DedupState.empty a).seenUrls = [normalizeUrl u] :=
    addItem_seenUrls_of_url DedupState.empty a u ha hu
  have hbdup : checkDuplicate sim cfg (addItem DedupState.empty a) b = ⟨true, some .urlSeen⟩ := by
    simp only [checkDuplicate, hb, Option.getD, checkUrlDuplicate, hsA, hnorm, hv]
    simp
    exact fun h => absurd h hv
  have key : dedupLoop sim cfg DedupState.empty [a, b] =
      ((dedupLoop sim cfg (addItem DedupState.empty a) [b]).1,
        a :: (dedupLoop sim cfg (addItem DedupState.empty a) [b]).2.1,
        (dedupLoop sim cfg (addItem DedupState.empty a) [b]).2.2) := by
    simp [dedupLoop, checkDuplicate_empty]
  have key2 : dedupLoop sim cfg (addItem DedupState.empty a) [b] =
      (addItem DedupState.empty a, [], [(b, DedupReason.urlSeen)]) := by
    simp [dedupLoop, hbdup]
  constructor
  · show (dedupLoop sim cfg DedupState.empty [a, b]).2.1 = [a]
    rw [key, key2]
  · show (dedupLoop sim cfg DedupState.empty [a, b]).2.2 = [(b, DedupReason.urlSeen)]
    rw [key, key2]

/-- Witness for C8 (amended) at a concrete instance: `itemAlpha` and
`itemBeta` share a normalized URL and the second is caught inside one call;
the result of `deduplicate` is insensitive to the incoming state. -/
theorem c8_amended_witness :
    deduplicate simZero DedupConfig.default DedupState.empty [itemAlpha] none
      = deduplicate simZero DedupConfig.default ⟨["stale-url"], ["stale title"]⟩ [itemAlpha] none
    ∧ (deduplicate simZero DedupConfig.default DedupState.empty [itemAlpha, itemBeta] none).2.1
      = [itemAlpha]
    ∧ (deduplicate simZero DedupConfig.default DedupState.empty [itemAlpha, itemBeta] none).2.2
      = [(itemBeta, DedupReason.urlSeen)] :=
  c8_amended simZero DedupConfig.default DedupState.empty ⟨["stale-url"], ["stale title"]⟩
    [itemAlpha] none itemAlpha itemBeta "http://example.com/x" "https://example.com/x/"
    rfl rfl (by decide) (by decide) rfl

/-- C7: the claim is refuted on the code — on a JSON parse failure
`parse_summary_response` does NOT return all three fields empty: the
`summary` field receives the first 200 characters of the (stripped) response
text (prompts.py line 299), here the non-empty string "not json". -/
theorem c7_counterexample :
    parse_summary_response "not json" none =
      .ok { title_zh := .str "", summary := .str "not json", reason := .str "" }
    ∧ Json.str "not json" ≠ Json.str "" := by
  refine ⟨rfl, ?_⟩
  intro h
  injection h with h2
  exact absurd h2 (by decide)

/-- C7 (amended): on a JSON parse failure the summary parser never raises —
the `JSONDecodeError` is caught — and returns `titleZh` and `reason` as
empty strings, with `summary` holding the first 200 characters of the
stripped response text (empty exactly when that text is empty). -/
theorem c7_amended (response : String) (parsed : Option Json) (h : parsed = none) :
    parse_summary_response response parsed =
      .ok { title_zh := .str "", summary := .str (pySlice200 (stripFences response))
          , reason := .str "" }
    ∧ (response = "" →
        parse_summary_response response parsed =
          .ok { title_zh := .str "", summary := .str "", reason := .str "" }) := by
  subst h
  refine ⟨rfl, ?_⟩
  intro h2
  subst h2
  rfl

/-- Witness for C7 (amended) on a concrete non-JSON response. -/
theorem c7_amended_witness :
    parse_summary_response "plain text reply" none =
      .ok { title_zh := .str "", summary := .str (pySlice200 (stripFences "plain text reply"))
          , reason := .str "" }
    ∧ ("plain text reply" = "" →
        parse_summary_response "plain text reply" none =
          .ok { title_zh := .str "", summary := .str "", reason := .str "" }) :=
  c7_amended "plain text reply" none rfl

theorem clampScore_bounds (o : Option Json) : 1 ≤ clampScore o ∧ clampScore o ≤ 10 := by
  match o with
  | none => simp [clampScore]
  | some j =>
    cases j with
    | num n =>
      simp only [clampScore]
      omega
    | bool b => cases b <;> simp [clampScore]
    | null => simp [clampScore]
    | str s => simp [clampScore]
    | arr xs => simp [clampScore]
    | obj fs => simp [clampScore]

theorem parseScoreItem_bounds {x : Json} {y : ScoreEntry} (h : parseScoreItem x = .ok y) :
    (1 ≤ y.relevance ∧ y.relevance ≤ 10) ∧ (1 ≤ y.quality ∧ y.quality ≤ 10)
    ∧ (1 ≤ y.timeliness ∧ y.timeliness ≤ 10) := by
  cases x with
  | obj fields =>
    simp only [parseScoreItem, Except.ok.injEq] at h
    subst h
    exact ⟨clampScore_bounds _, clampScore_bounds _, clampScore_bounds _⟩
  | null => simp [parseScoreItem] at h
  | bool b => simp [parseScoreItem] at h
  | num n => simp [parseScoreItem] at h
  | str s => simp [parseScoreItem] at h
  | arr xs => simp [parseScoreItem] at h

theorem parseScoreItems_mem {items : List Json} {ys : List ScoreEntry} {y : ScoreEntry}
    (h : parseScoreItems items = .ok ys) (hy : y ∈ ys) :
    ∃ x, parseScoreItem x = .ok y := by
  induction items generalizing ys with
  | nil =>
    simp only [parseScoreItems, Except.ok.injEq] at h
    subst h
    cases hy
  | cons x xs ih =>
    simp only [parseScoreItems] at h
    cases hx : parseScoreItem x with
    | error e => rw [hx] at h; simp at h
    | ok z =>
      rw [hx] at h
      cases hxs : parseScoreItems xs with
      | error e => rw [hxs] at h; simp at h
      | ok zs =>
        rw [hxs] at h
        simp only [Except.ok.injEq] at h
        subst h
        cases hy with
        | head => exact ⟨x, hx⟩
        | tail _ hy2 => exact ih hxs hy2

theorem parse_scoring_ok_entries {resp : Option Json} {entries : List ScoreEntry} {e : ScoreEntry}
    (h : parse_scoring_response resp = .ok entries) (he : e ∈ entries) :
    ∃ x, parseScoreItem x = .ok e := by
  cases resp with
  | none =>
    simp only [parse_scoring_response, Except.ok.injEq] at h
    subst h
    cases he
  | some j =>
    cases j with
    | obj fields =>
      simp only [parse_scoring_response] at h
      split at h
      · exact parseScoreItems_mem h he
      · simp only [Except.ok.injEq] at h; subst h; cases he
      · simp only [Except.ok.injEq] at h; subst h; cases he
      · simp at h
    | null => simp [parse_scoring_response] at h
    | bool b => simp [parse_scoring_response] at h
    | num n => simp [parse_scoring_response] at h
    | str s => simp [parse_scoring_response] at h
    | arr xs => simp [parse_scoring_response] at h

/-- C5: every sub-score in a parsed scoring result lies in [1,10]; numeric
values outside the range are clamped to the nearer bound (0 to 1, 15 to 10,
-3 to 1) and missing or non-numeric values ("abc") default to 5. -/
theorem c5_score_clamping (resp : Option Json) (entries : List ScoreEntry) (e : ScoreEntry)
    (h : parse_scoring_response resp = .ok entries) (he : e ∈ entries) :
    ((1 ≤ e.relevance ∧ e.relevance ≤ 10) ∧ (1 ≤ e.quality ∧ e.quality ≤ 10)
      ∧ (1 ≤ e.timeliness ∧ e.timeliness ≤ 10))
    ∧ clampScore (some (.num 0)) = 1
    ∧ clampScore (some (.num 15)) = 10
    ∧ clampScore (some (.num (-3))) = 1
    ∧ clampScore (some (.str "abc")) = 5
    ∧ clampScore none = 5 := by
  refine ⟨?_, by decide, by decide, by decide, by decide, by decide⟩
  obtain ⟨x, hx⟩ := parse_scoring_ok_entries h he
  exact parseScoreItem_bounds hx

/-- Witness for C5 on the synthetic out-of-range response. -/
theorem c5_score_clamping_witness :
    ((1 ≤ entrySynthetic.relevance ∧ entrySynthetic.relevance ≤ 10)
      ∧ (1 ≤ entrySynthetic.quality ∧ entrySynthetic.quality ≤ 10)
      ∧ (1 ≤ entrySynthetic.timeliness ∧ entrySynthetic.timeliness ≤ 10))
    ∧ clampScore (some (.num 0)) = 1
    ∧ clampScore (some (.num 15)) = 10
    ∧ clampScore (some (.num (-3))) = 1
    ∧ clampScore (some (.str "abc")) = 5
    ∧ clampScore none = 5 :=
  c5_score_clamping respSynthetic [entrySynthetic] entrySynthetic rfl (List.Mem.head _)

/-- C2: a scoring batch whose LLM response fails to JSON-parse yields zero
results (`parse_scoring_response` returns an empty list, `score_articles`
an empty batch), and the orchestrator assigns every article with no scoring
entry the neutral fallback relevance = quality = timeliness = 5, total
score 15, category "other" and no keywords — the article stays in
`scored_items` rather than being dropped. -/
theorem c2_parse_failure_fallback (pending : List RawItemRec) (results : List ScoreEntry)
    (i : Nat) (hi : i < (mkScoredItems pending results).length)
    (hmiss : ∀ e ∈ results, isIndexKey e.index i = false) :
    parse_scoring_response none = .ok []
    ∧ score_articles none = []
    ∧ (mkScoredItems pending results).length = pending.length
    ∧ ((mkScoredItems pending results)[i]).relevance = 5
    ∧ ((mkScoredItems pending results)[i]).quality = 5
    ∧ ((mkScoredItems pending results)[i]).timeliness = 5
    ∧ ((mkScoredItems pending results)[i]).total_score = 15
    ∧ ((mkScoredItems pending results)[i]).category = "other"
    ∧ ((mkScoredItems pending results)[i]).keywords = [] := by
  have hflt : results.filter (fun e => isIndexKey e.index i) = [] := by
    rw [List.filter_eq_nil_iff]
    intro e he
    simp [hmiss e he]
  have hfall : scoreDataOf results i = fallbackScore := by
    simp [scoreDataOf, allScoresGet, hflt]
  refine ⟨rfl, rfl, by simp [mkScoredItems, List.enum_length], ?_, ?_, ?_, ?_, ?_, ?_⟩ <;>
    simp [mkScoredItems, List.getElem_map, List.getElem_enum, hfall, fallbackScore]

/-- Witness for C2: five pending articles, no scoring results at all. -/
theorem c2_parse_failure_fallback_witness :
    parse_scoring_response none = .ok []
    ∧ score_articles none = []
    ∧ (mkScoredItems pendingFive []).length = pendingFive.length
    ∧ ((mkScoredItems pendingFive [])[0]).relevance = 5
    ∧ ((mkScoredItems pendingFive [])[0]).quality = 5
    ∧ ((mkScoredItems pendingFive [])[0]).timeliness = 5
    ∧ ((mkScoredItems pendingFive [])[0]).total_score = 15
    ∧ ((mkScoredItems pendingFive [])[0]).category = "other"
    ∧ ((mkScoredItems pendingFive [])[0]).keywords = [] :=
  c2_parse_failure_fallback pendingFive [] 0 (by decide) (by simp)

theorem insertSorted_perm {a : Type} (le : a → a → Bool) (x : a) (l : List a) :
    (insertSorted le x l).Perm (x :: l) := by
  induction l with
  | nil => exact List.Perm.refl _
  | cons y ys ih =>
    simp only [insertSorted]
    split
    · exact List.Perm.refl _
    · exact (ih.cons y).trans (List.Perm.swap x y ys)

theorem insertionSort_perm {a : Type} (le : a → a → Bool) (l : List a) :
    (insertionSort le l).Perm l := by
  induction l with
  | nil => exact List.Perm.refl _
  | cons x xs ih => exact (insertSorted_perm le x _).trans (ih.cons x)

theorem selectTop_append (sorted : List ScoredItem) (topN : Nat) :
    (selectTop sorted topN).1 ++ (selectTop sorted topN).2 = sorted := by
  unfold selectTop
  split
  · simp
  · exact List.take_append_drop _ _

theorem mkScoredItems_map_item (pending : List RawItemRec) (results : List ScoreEntry) :
    (mkScoredItems pending results).map (fun s => s.item) = pending := by
  unfold mkScoredItems
  rw [List.map_map]
  have hcomp : ((fun s : ScoredItem => s.item) ∘
      (fun p : Nat × RawItemRec =>
        let d := scoreDataOf results p.1
        ({ index := p.1, item := p.2
         , total_score := d.relevance + d.quality + d.timeliness
         , relevance := d.relevance, quality := d.quality, timeliness := d.timeliness
         , category := d.category, keywords := d.keywords } : ScoredItem)))
      = Prod.snd := by
    funext p
    rfl
  rw [hcomp, List.enum_map_snd]

theorem storeScores_ok (results : List ScoreEntry)
    (hidx : ∀ e ∈ results, isHashable e.index = true) :
    storeScores results = .ok results := by
  induction results with
  | nil => rfl
  | cons e es ih =>
    simp only [storeScores]
    rw [if_pos (hidx e (List.mem_cons_self e es)),
      ih (fun x hx => hidx x (List.mem_cons_of_mem e hx))]

/-- C1: refuted — the coverage invariant fails for a run whose LLM response
parses as JSON but carries a JSON array as an entry's `index`: storing it as
a dict key (run_processor.py line 151) raises an uncaught `TypeError`, the
run aborts, and zero `ProcessedItem` rows and zero status writes happen for
the five pending articles. -/
theorem c1_counterexample :
    parse_scoring_response respBadIndex = .ok [entryBadIndex]
    ∧ runProcessor pendingFive [entryBadIndex] emptySummaries 15 = .error "TypeError" := by
  constructor <;> rfl

/-- C1 (amended): for every run whose scoring-result aggregation succeeds —
no parsed entry's `index` is a JSON array or object, the unhashable dict
keys that abort the run at `all_scores[r['index']] = r` — the run completes
and inserts exactly N `ProcessedItem` rows, one per pending `RawItem` (the
`raw_item_id`s are a permutation of the pending ids), writes status
"scored" to every one of those N `RawItem`s, and every unapproved
`ProcessedItem` carries empty strings (never null) in `title_zh`, `summary`
and `reason`. -/
theorem c1_coverage_amended (pending : List RawItemRec) (results : List ScoreEntry)
    (summaries : Nat → SummaryFields) (topN : Nat)
    (hidx : ∀ e ∈ results, isHashable e.index = true) :
    runProcessor pending results summaries topN
      = .ok (runProcessorPersist pending results summaries topN)
    ∧ (runProcessorPersist pending results summaries topN).1.length = pending.length
    ∧ ((runProcessorPersist pending results summaries topN).1.map
        (fun p => p.raw_item_id)).Perm (pending.map (fun it => it.id))
    ∧ (runProcessorPersist pending results summaries topN).2.length = pending.length
    ∧ (∀ w ∈ (runProcessorPersist pending results summaries topN).2, w.2 = "scored")
    ∧ ((runProcessorPersist pending results summaries topN).2.map Prod.fst).Perm
        (pending.map (fun it => it.id))
    ∧ (∀ p ∈ (runProcessorPersist pending results summaries topN).1,
        p.approved = false →
          p.title_zh = .str "" ∧ p.summary = .str "" ∧ p.reason = .str "") := by
  have hlenS : (mkScoredItems pending results).length = pending.length := by
    simp [mkScoredItems, List.enum_length]
  have hS : (mkScoredItems pending results).map (fun s => s.item.id)
      = pending.map (fun it => it.id) := by
    rw [show (fun s : ScoredItem => s.item.id)
        = ((fun it : RawItemRec => it.id) ∘ (fun s : ScoredItem => s.item)) from rfl,
      ← List.map_map, mkScoredItems_map_item]
  have hperm : (sortScoredDesc (mkScoredItems pending results)).Perm
      (mkScoredItems pending results) := insertionSort_perm _ _
  have hsortlen : (sortScoredDesc (mkScoredItems pending results)).length = pending.length := by
    rw [hperm.length_eq]
    exact hlenS
  have happ : (selectTop (sortScoredDesc (mkScoredItems pending results)) topN).1
      ++ (selectTop (sortScoredDesc (mkScoredItems pending results)) topN).2
      = sortScoredDesc (mkScoredItems pending results) := selectTop_append _ _
  have happlen : (selectTop (sortScoredDesc (mkScoredItems pending results)) topN).1.length
      + (selectTop (sortScoredDesc (mkScoredItems pending results)) topN).2.length
      = pending.length := by
    have h2 := congrArg List.length happ
    simp only [List.length_append] at h2
    omega
  have hpermid : ((sortScoredDesc (mkScoredItems pending results)).map
      (fun s => s.item.id)).Perm (pending.map (fun it => it.id)) := by
    rw [← hS]
    exact hperm.map _
  refine ⟨?_, ?_, ?_, ?_, ?_, ?_, ?_⟩
  · unfold runProcessor
    rw [storeScores_ok results hidx]
  · simp only [runProcessorPersist, List.length_append, List.length_map]
    exact happlen
  · simp only [runProcessorPersist]
    have hmaps : (((selectTop (sortScoredDesc (mkScoredItems pending results)) topN).1.map
          (fun s => mkApprovedItem (summaries s.index) s)
        ++ (selectTop (sortScoredDesc (mkScoredItems pending results)) topN).2.map
          mkRejectedItem).map (fun p => p.raw_item_id))
        = ((selectTop (sortScoredDesc (mkScoredItems pending results)) topN).1
          ++ (selectTop (sortScoredDesc (mkScoredItems pending results)) topN).2).map
          (fun s => s.item.id) := by
      simp only [List.map_append, List.map_map]
      rfl
    rw [hmaps, happ]
    exact hpermid
  · simp only [runProcessorPersist, List.length_append, List.length_map]
    exact happlen
  · intro w hw
    simp only [runProcessorPersist, List.mem_append, List.mem_map] at hw
    rcases hw with ⟨s, _, rfl⟩ | ⟨s, _, rfl⟩ <;> rfl
  · simp only [runProcessorPersist]
    have hmaps : (((selectTop (sortScoredDesc (mkScoredItems pending results)) topN).1.map
          (fun s => (s.item.id, "scored"))
        ++ (selectTop (sortScoredDesc (mkScoredItems pending results)) topN).2.map
          (fun s => (s.item.id, "scored"))).map Prod.fst)
        = ((selectTop (sortScoredDesc (mkScoredItems pending results)) topN).1
          ++ (selectTop (sortScoredDesc (mkScoredItems pending results)) topN).2).map
          (fun s => s.item.id) := by
      simp only [List.map_append, List.map_map]
      rfl
    rw [hmaps, happ]
    exact hpermid
  · intro p hp hfalse
    simp only [runProcessorPersist, List.mem_append, List.mem_map] at hp
    rcases hp with ⟨s, _, rfl⟩ | ⟨s, _, rfl⟩
    · simp [mkApprovedItem] at hfalse
    · exact ⟨rfl, rfl, rfl⟩

/-- C3: refuted — with five pending articles scored 10-14, min_score 20 and
top_n 15 the processor approves all five (the soft threshold), but the
generator filters approved rows by `total_score >= min_score` as a hard
threshold, so its selection for the report is empty: none of the five
articles appears in the generated report. -/
theorem c3_counterexample :
    (∀ p ∈ (runProcessorPersist pendingFive resultsLow emptySummaries 15).1,
      p.approved = true)
    ∧ generatorSelect
        ((runProcessorPersist pendingFive resultsLow emptySummaries 15).1.map toGenRow)
        20 15 = [] := by
  constructor
  · decide
  · rfl

/-- C3 (amended): when at most top_n articles are pending the processor
selects and approves all of them regardless of min_score (the soft
threshold), but every row of the generator's report selection satisfies
`min_score ≤ total_score` (a hard filter) and is approved — so articles
below the generator's min_score never appear in the report's selection. -/
theorem c3_amended (pending : List RawItemRec) (results : List ScoreEntry)
    (summaries : Nat → SummaryFields) (topN : Nat) (hfit : pending.length ≤ topN)
    (db : List GenRow) (minScore : Int) (topN2 : Nat) (r : GenRow)
    (hr : r ∈ generatorSelect db minScore topN2) :
    (∀ p ∈ (runProcessorPersist pending results summaries topN).1, p.approved = true)
    ∧ minScore ≤ r.total_score ∧ r.approved = true := by
  have hsortlen : (sortScoredDesc (mkScoredItems pending results)).length ≤ topN := by
    rw [show sortScoredDesc (mkScoredItems pending results)
        = insertionSort (fun a b => decide (b.total_score ≤ a.total_score))
          (mkScoredItems pending results) from rfl,
      (insertionSort_perm _ _).length_eq]
    simpa [mkScoredItems, List.enum_length] using hfit
  have hsel : selectTop (sortScoredDesc (mkScoredItems pending results)) topN
      = (sortScoredDesc (mkScoredItems pending results), []) := by
    unfold selectTop
    rw [if_pos hsortlen]
  refine ⟨?_, ?_, ?_⟩
  · intro p hp
    simp only [runProcessorPersist, hsel, List.map_nil, List.append_nil, List.mem_map] at hp
    obtain ⟨s, _, rfl⟩ := hp
    rfl
  all_goals
    have h1 : r ∈ (db.filter
        (fun p => p.approved && p.recentPub && decide (minScore ≤ p.total_score))) := by
      have h2 := List.take_subset _ _ hr
      have h3 := List.take_subset _ _ h2
      exact ((insertionSort_perm _ _).mem_iff).1 h3
    have h4 := (List.mem_filter.1 h1).2
    simp only [Bool.and_eq_true, decide_eq_true_eq] at h4
  · exact h4.2
  · exact h4.1.1

/-- Witness for C3 (amended): the five low-scoring pending articles are all
approved, and a row selected by the generator under min_score 3 meets the
threshold. -/
theorem c3_amended_witness :
    (∀ p ∈ (runProcessorPersist pendingFive resultsLow emptySummaries 15).1,
      p.approved = true)
    ∧ (3 : Int) ≤ rowOk.total_score ∧ rowOk.approved = true :=
  c3_amended pendingFive resultsLow emptySummaries 15 (by decide) [rowOk] 3 15 rowOk (by decide)

/-- C4: refuted — the `ReportItem` rows enumerate the score-ordered selection
(run_generator.py line 479), so the article at score rank 4 (id 3, category
"tools") gets order_index 3 even though the rendered document places it
last (position 4), after the rank-5 "ai-ml" article that its category group
hoists above it. -/
theorem c4_counterexample :
    reportItemRows rowsReorder = [(0, 0), (1, 1), (2, 2), (3, 3), (4, 4)]
    ∧ (renderedOrder rowsReorder).map (fun r => r.id) = [0, 1, 2, 4, 3]
    ∧ ¬ (∀ pr ∈ reportItemRows rowsReorder,
        ((renderedOrder rowsReorder).map (fun r => r.id))[pr.2]? = some pr.1) := by
  refine ⟨rfl, rfl, ?_⟩
  decide

/-- C4 (amended): each persisted ReportItem's order_index equals the
article's 0-based position in the score-descending selection list — the raw
score rank — not its position in the rendered document order, which regroups
items 4+ by category (as the counterexample shows). -/
theorem c4_amended (items : List GenRow) (i : Nat) (hi : i < items.length) :
    (reportItemRows items).length = items.length
    ∧ (reportItemRows items)[i]? = some ((items.get ⟨i, hi⟩).id, i) := by
  constructor
  · simp [reportItemRows, List.enum_length]
  · have hlen : i < (reportItemRows items).length := by
      simpa [reportItemRows, List.enum_length] using hi
    rw [List.getElem?_eq_getElem hlen]
    simp only [reportItemRows, List.getElem_map, List.getElem_enum]
    rfl

/-- Witness for C4 (amended) at score rank 3 of the concrete selection. -/
theorem c4_amended_witness :
    (reportItemRows rowsReorder).length = rowsReorder.length
    ∧ (reportItemRows rowsReorder)[3]? = some ((rowsReorder.get ⟨3, by decide⟩).id, 3) :=
  c4_amended rowsReorder 3 (by decide)

theorem foldlMax_acc_le (ws : List Int) (a : Int) :
    ∃ m, ws.foldl (fun acc v =>
      match acc with
      | none => some v
      | some m2 => some (max m2 v)) (some a) = some m ∧ a ≤ m := by
  induction ws generalizing a with
  | nil => exact ⟨a, rfl, le_refl a⟩
  | cons w ws ih =>
    obtain ⟨m, hm, hle⟩ := ih (max a w)
    exact ⟨m, hm, le_trans (le_max_left a w) hle⟩

theorem foldlMax_mem (ws : List Int) (v : Int) (hv : v ∈ ws) (acc : Option Int) :
    ∃ m, ws.foldl (fun acc2 w =>
      match acc2 with
      | none => some w
      | some m2 => some (max m2 w)) acc = some m ∧ v ≤ m := by
  induction ws generalizing acc with
  | nil => cases hv
  | cons w ws ih =>
    cases hv with
    | head =>
      cases acc with
      | none =>
        obtain ⟨m, hm, hle⟩ := foldlMax_acc_le ws v
        exact ⟨m, hm, hle⟩
      | some a =>
        obtain ⟨m, hm, hle⟩ := foldlMax_acc_le ws (max a v)
        exact ⟨m, hm, le_trans (le_max_right a v) hle⟩
    | tail _ hv2 => exact ih hv2 _

theorem maxVersionScalar_le (db : List ReportRec) (d : Int) (r : ReportRec)
    (hr : r ∈ db) (hd : r.report_date = d) :
    ∃ m, maxVersionScalar db d = some m ∧ r.version ≤ m := by
  have hmem : r.version ∈ (db.filter (fun r2 => r2.report_date == d)).map
      (fun r2 => r2.version) :=
    List.mem_map.2 ⟨r, List.mem_filter.2 ⟨hr, by simp [hd]⟩, rfl⟩
  exact foldlMax_mem _ _ hmem none

theorem saveReport_version_gt (db : List ReportRec) (d : Int) (t c h : String)
    (r : ReportRec) (hr : r ∈ db) (hd : r.report_date = d) :
    r.version < (saveReport db d t c h).1.version := by
  obtain ⟨m, hm, hle⟩ := maxVersionScalar_le db d r hr hd
  show r.version < (maxVersionScalar db d).getD 0 + 1
  rw [hm]
  simp only [Option.getD_some]
  omega

/-- C6: three report saves for one date yield versions 1, 2 and 3 in
creation order; the table only grows by appending the new rows (no existing
row is mutated); a new report's version strictly exceeds every existing
version for its date; and uniqueness of (report_date, version) is preserved. -/
theorem c6_versioning (db : List ReportRec) (d : Int)
    (hfresh : ∀ r ∈ db, r.report_date ≠ d)
    (huniq : db.Pairwise (fun a b => a.report_date ≠ b.report_date ∨ a.version ≠ b.version)) :
    (saveThree db d).1.version = 1
    ∧ (saveThree db d).2.1.version = 2
    ∧ (saveThree db d).2.2.1.version = 3
    ∧ (saveThree db d).2.2.2
      = db ++ [(saveThree db d).1, (saveThree db d).2.1, (saveThree db d).2.2.1]
    ∧ (∀ (db2 : List ReportRec) (d2 : Int) (t c h : String) (r : ReportRec),
        r ∈ db2 → r.report_date = d2 → r.version < (saveReport db2 d2 t c h).1.version)
    ∧ ((saveThree db d).2.2.2).Pairwise
        (fun a b => a.report_date ≠ b.report_date ∨ a.version ≠ b.version) := by
  have hfilter : db.filter (fun r => r.report_date == d) = [] := by
    rw [List.filter_eq_nil_iff]
    intro r hrr
    simpa using hfresh r hrr
  have hv1 : (saveThree db d).1 =
      { report_date := d, title := "Report", content := "content-1", highlights := "hl-1"
      , status := "draft", version := 1 } := by
    simp [saveThree, saveReport, maxVersionScalar, hfilter]
  have hdb1 : (saveReport db d "Report" "content-1" "hl-1").2 = db ++ [(saveThree db d).1] := by
    rw [hv1]
    simp [saveThree, saveReport, maxVersionScalar, hfilter]
  have hfilter1 : (db ++ [(saveThree db d).1]).filter (fun r => r.report_date == d)
      = [(saveThree db d).1] := by
    rw [List.filter_append, hfilter, hv1]
    simp
  have hv2 : (saveThree db d).2.1 =
      { report_date := d, title := "Report", content := "content-2", highlights := "hl-2"
      , status := "draft", version := 2 } := by
    show (saveReport (saveReport db d "Report" "content-1" "hl-1").2 d
      "Report" "content-2" "hl-2").1 = _
    rw [hdb1]
    simp [saveReport, maxVersionScalar, hfilter1, hfilter, hv1]
  have hdb2 : (saveReport (saveReport db d "Report" "content-1" "hl-1").2 d
      "Report" "content-2" "hl-2").2 = db ++ [(saveThree db d).1, (saveThree db d).2.1] := by
    have : (saveReport (saveReport db d "Report" "content-1" "hl-1").2 d
        "Report" "content-2" "hl-2").2
        = (saveReport db d "Report" "content-1" "hl-1").2 ++ [(saveThree db d).2.1] := by
      rw [hv2]
      rw [hdb1]
      simp [saveReport, maxVersionScalar, hfilter1, hfilter, hv1]
    rw [this, hdb1, List.append_assoc]
    rfl
  have hfilter2 : (db ++ [(saveThree db d).1, (saveThree db d).2.1]).filter
      (fun r => r.report_date == d) = [(saveThree db d).1, (saveThree db d).2.1] := by
    rw [List.filter_append, hfilter, hv1, hv2]
    simp
  have hv3 : (saveThree db d).2.2.1 =
      { report_date := d, title := "Report", content := "content-3", highlights := "hl-3"
      , status := "draft", version := 3 } := by
    show (saveReport (saveReport (saveReport db d "Report" "content-1" "hl-1").2 d
      "Report" "content-2" "hl-2").2 d "Report" "content-3" "hl-3").1 = _
    rw [hdb2]
    simp [saveReport, maxVersionScalar, hfilter2, hfilter, hv1, hv2]
  have hdb3 : (saveThree db d).2.2.2
      = db ++ [(saveThree db d).1, (saveThree db d).2.1, (saveThree db d).2.2.1] := by
    show (saveReport (saveReport (saveReport db d "Report" "content-1" "hl-1").2 d
      "Report" "content-2" "hl-2").2 d "Report" "content-3" "hl-3").2 = _
    have : (saveReport (saveReport (saveReport db d "Report" "content-1" "hl-1").2 d
        "Report" "content-2" "hl-2").2 d "Report" "content-3" "hl-3").2
        = (saveReport (saveReport db d "Report" "content-1" "hl-1").2 d
          "Report" "content-2" "hl-2").2 ++ [(saveThree db d).2.2.1] := by
      rw [hv3, hdb2]
      simp [saveReport, maxVersionScalar, hfilter2, hfilter, hv1, hv2]
    rw [this, hdb2, List.append_assoc]
    rfl
  refine ⟨by rw [hv1], by rw [hv2], by rw [hv3], hdb3, saveReport_version_gt, ?_⟩
  rw [hdb3]
  rw [List.pairwise_append]
  refine ⟨huniq, ?_, ?_⟩
  · rw [hv1, hv2, hv3]
    refine List.Pairwise.cons ?_ (List.Pairwise.cons ?_ (List.pairwise_singleton _ _))
    · intro b hb
      simp only [List.mem_cons, List.not_mem_nil, or_false] at hb
      rcases hb with rfl | rfl
      · exact Or.inr (by decide : (1 : Int) ≠ 2)
      · exact Or.inr (by decide : (1 : Int) ≠ 3)
    · intro b hb
      simp only [List.mem_cons, List.not_mem_nil, or_false] at hb
      subst hb
      exact Or.inr (by decide : (2 : Int) ≠ 3)
  · intro a ha b hb
    left
    simp only [List.mem_cons, List.not_mem_nil, or_false] at hb
    have hbd : b.report_date = d := by
      rcases hb with rfl | rfl | rfl
      · rw [hv1]
      · rw [hv2]
      · rw [hv3]
    rw [hbd]
    exact hfresh a ha

/-- Witness for C6 on an initially empty report table. -/
theorem c6_versioning_witness :
    (saveThree [] 7).1.version = 1
    ∧ (saveThree [] 7).2.1.version = 2
    ∧ (saveThree [] 7).2.2.1.version = 3
    ∧ (saveThree [] 7).2.2.2
      = [] ++ [(saveThree [] 7).1, (saveThree [] 7).2.1, (saveThree [] 7).2.2.1]
    ∧ (∀ (db2 : List ReportRec) (d2 : Int) (t c h : String) (r : ReportRec),
        r ∈ db2 → r.report_date = d2 → r.version < (saveReport db2 d2 t c h).1.version)
    ∧ ((saveThree [] 7).2.2.2).Pairwise
        (fun a b => a.report_date ≠ b.report_date ∨ a.version ≠ b.version) :=
  c6_versioning [] 7 (by simp) List.Pairwise.nil

/-- C10: passing 0 for any `RuleFilter` threshold argument does not set that
threshold to 0 — `x or default` treats 0 as falsy, so the instance silently
falls back to the configured default (48h / 10 / 50), exactly as omitting
the argument does; no constructor call can produce a zero threshold when the
defaults are the configured ones. -/
theorem c10_zero_threshold (a b c : Option Int) (v : Int) (hv : v ≠ 0) :
    ruleFilterInit defaultSettings (some 0) (some 0) (some 0)
      = { max_age_hours := 48, title_min_length := 10, content_min_length := 50 }
    ∧ ruleFilterInit defaultSettings none none none
      = { max_age_hours := 48, title_min_length := 10, content_min_length := 50 }
    ∧ (ruleFilterInit defaultSettings a b c).max_age_hours ≠ 0
    ∧ (ruleFilterInit defaultSettings a b c).title_min_length ≠ 0
    ∧ (ruleFilterInit defaultSettings a b c).content_min_length ≠ 0
    ∧ (ruleFilterInit defaultSettings (some v) none none).max_age_hours = v := by
  refine ⟨by decide, by decide, ?_, ?_, ?_, ?_⟩
  · show pyOrInt a 48 ≠ 0
    unfold pyOrInt
    cases a with
    | none => decide
    | some w =>
      dsimp only
      split
      · decide
      · assumption
  · show pyOrInt b 10 ≠ 0
    unfold pyOrInt
    cases b with
    | none => decide
    | some w =>
      dsimp only
      split
      · decide
      · assumption
  · show pyOrInt c 50 ≠ 0
    unfold pyOrInt
    cases c with
    | none => decide
    | some w =>
      dsimp only
      split
      · decide
      · assumption
  · show pyOrInt (some v) 48 = v
    unfold pyOrInt
    dsimp only
    rw [if_neg hv]

/-- Witness for C10 with the non-zero argument 7. -/
theorem c10_zero_threshold_witness :
    ruleFilterInit defaultSettings (some 0) (some 0) (some 0)
      = { max_age_hours := 48, title_min_length := 10, content_min_length := 50 }
    ∧ ruleFilterInit defaultSettings none none none
      = { max_age_hours := 48, title_min_length := 10, content_min_length := 50 }
    ∧ (ruleFilterInit defaultSettings (some 0) (some 0) (some 0)).max_age_hours ≠ 0
    ∧ (ruleFilterInit defaultSettings (some 0) (some 0) (some 0)).title_min_length ≠ 0
    ∧ (ruleFilterInit defaultSettings (some 0) (some 0) (some 0)).content_min_length ≠ 0
    ∧ (ruleFilterInit defaultSettings (some 7) none none).max_age_hours = 7 :=
  c10_zero_threshold (some 0) (some 0) (some 0) 7 (by decide)

/-- Witness for C1 (amended): the five pending articles with integer-indexed
scoring results complete the run with full coverage. -/
theorem c1_coverage_amended_witness :
    runProcessor pendingFive resultsLow emptySummaries 15
      = .ok (runProcessorPersist pendingFive resultsLow emptySummaries 15)
    ∧ (runProcessorPersist pendingFive resultsLow emptySummaries 15).1.length
      = pendingFive.length
    ∧ ((runProcessorPersist pendingFive resultsLow emptySummaries 15).1.map
        (fun p => p.raw_item_id)).Perm (pendingFive.map (fun it => it.id))
    ∧ (runProcessorPersist pendingFive resultsLow emptySummaries 15).2.length
      = pendingFive.length
    ∧ (∀ w ∈ (runProcessorPersist pendingFive resultsLow emptySummaries 15).2, w.2 = "scored")
    ∧ ((runProcessorPersist pendingFive resultsLow emptySummaries 15).2.map Prod.fst).Perm
        (pendingFive.map (fun it => it.id))
    ∧ (∀ p ∈ (runProcessorPersist pendingFive resultsLow emptySummaries 15).1,
        p.approved = false →
          p.title_zh = .str "" ∧ p.summary = .str "" ∧ p.reason = .str "") :=
  c1_coverage_amended pendingFive resultsLow emptySummaries 15 (by decide)
